import Mathlib

/-
Verification of the viseme-driven facial animation engine of the
working_visemes_3D_avatar repository.

The engine logic is embedded shallowly:

- playback times, durations and parameter weights are rationals
  (the JavaScript numbers involved are exact decimals);
- the per-frame smoothing that uses the exponential factor is modelled
  over the reals, because the factor is 1 - exp(-rate * dt);
- the timeline resolvers of the 2D canvas renderers (Avatar.tsx,
  HumanAvatar.tsx, RealisticAvatar.tsx, PhotoRealisticAvatar.tsx,
  VideoStyleAvatar.tsx and the ImageBasedAvatar) share one loop and are
  embedded once; the distinct resolver of Face3DAvatar.tsx is embedded
  separately;
- JavaScript-specific behaviour that matters to the claims is modelled
  explicitly: the spread of undefined producing an empty object, the
  truthiness of every object value under the logical-or operator, and
  NaN poisoning of the animated parameters (as an Option that becomes
  none).
-/

namespace VisemeAnim

/-- One mouth-shape event of a timeline, string-coded vocabulary
(Avatar.tsx, HumanAvatar.tsx, RealisticAvatar.tsx,
PhotoRealisticAvatar.tsx, VideoStyleAvatar.tsx, ImageBasedAvatar). -/
structure VisemeEvent where
  time : ℚ
  viseme : String
  duration : ℚ
  deriving DecidableEq

/-- One mouth-shape event of a timeline, numeric vocabulary
(Face3DAvatar.tsx). -/
structure VisemeEvent3D where
  time : ℚ
  viseme : Int
  duration : ℚ
  deriving DecidableEq

/-- The scan loop shared by the 2D renderers: walk the timeline in
sequence order, return the viseme of the first event whose half-open
interval contains the current time, breaking out of the loop; the
accumulator stays at the silence code when no event matches
(Avatar.tsx lines 49 to 55 and the identical loops of the other 2D
components). -/
def resolveLoop : List VisemeEvent → ℚ → String
  | [], _ => "sil"
  | v :: rest, t =>
      if v.time ≤ t ∧ t < v.time + v.duration then v.viseme
      else resolveLoop rest t

/-- The resolver of the 2D renderers: silence when not playing or when
the timeline is empty, otherwise the scan loop
(Avatar.tsx lines 43 to 56). -/
def resolve (visemes : List VisemeEvent) (currentTime : ℚ)
    (isPlaying : Bool) : String :=
  if isPlaying = false ∨ visemes = [] then "sil"
  else resolveLoop visemes currentTime

/-- Modelled from the spec: the viseme of the first event in sequence
order whose half-open interval contains the time, silence when no
interval contains it.  Stated with List.find? to compare against the
loop the code runs. -/
def firstCoveringViseme (visemes : List VisemeEvent) (t : ℚ) : String :=
  match visemes.find? (fun e => decide (e.time ≤ t ∧ t < e.time + e.duration)) with
  | some e => e.viseme
  | none => "sil"

/-- The downward scan of Face3DAvatar's getCurrentViseme: the source
iterates the indices from the last to the first and returns the viseme
of the first event it meets whose start time is at or before the
current time.  Embedded as a head-first scan of the reversed list. -/
def lastAtOrBefore : List VisemeEvent3D → ℚ → Int
  | [], _ => 0
  | v :: rest, t => if v.time ≤ t then v.viseme else lastAtOrBefore rest t

/-- Face3DAvatar.tsx getCurrentViseme (lines 268 to 277): silence code 0
for an empty timeline, otherwise the downward scan; event durations are
never read. -/
def getCurrentViseme (visemes : List VisemeEvent3D) (t : ℚ) : Int :=
  if visemes.isEmpty then 0 else lastAtOrBefore visemes.reverse t

/-- The hold-last policy stated with List.find? over the reversed
timeline: the viseme of the latest event whose start time is at or
before t, and 0 when no event has started. -/
def holdLastViseme (visemes : List VisemeEvent3D) (t : ℚ) : Int :=
  match visemes.reverse.find? (fun e => decide (e.time ≤ t)) with
  | some e => e.viseme
  | none => 0

/-- Mouth shape parameter set of Avatar.tsx's VISEME_SHAPES table. -/
structure MouthShapeA where
  mouthWidth : ℚ
  mouthHeight : ℚ
  mouthOpen : ℚ
  deriving DecidableEq

/-- The VISEME_SHAPES table of Avatar.tsx (lines 6 to 22). -/
def VISEME_SHAPES : List (String × MouthShapeA) :=
  [ ("sil", ⟨0.3, 0.05, 0⟩),
    ("PP", ⟨0.15, 0.02, 0⟩),
    ("FF", ⟨0.35, 0.1, 0.1⟩),
    ("TH", ⟨0.3, 0.15, 0.2⟩),
    ("DD", ⟨0.25, 0.12, 0.15⟩),
    ("kk", ⟨0.28, 0.18, 0.2⟩),
    ("CH", ⟨0.2, 0.2, 0.15⟩),
    ("SS", ⟨0.22, 0.08, 0.1⟩),
    ("nn", ⟨0.25, 0.1, 0.1⟩),
    ("RR", ⟨0.28, 0.2, 0.25⟩),
    ("aa", ⟨0.35, 0.4, 0.5⟩),
    ("E", ⟨0.38, 0.25, 0.3⟩),
    ("I", ⟨0.35, 0.15, 0.2⟩),
    ("O", ⟨0.25, 0.35, 0.4⟩),
    ("U", ⟨0.18, 0.28, 0.35⟩) ]

/-- The sil entry of VISEME_SHAPES. -/
def silShapeA : MouthShapeA := ⟨0.3, 0.05, 0⟩

/-- Avatar.tsx line 76: a property access on the table followed by a
logical-or fallback.  A missing key reads as undefined, which is falsy,
so the or expression yields the sil entry: the lookup is total. -/
def avatarMouthShape (visemeKey : String) : MouthShapeA :=
  match VISEME_SHAPES.lookup visemeKey with
  | some s => s
  | none => silShapeA

/-- Mouth shape parameter set of VideoStyleAvatar.tsx's MOUTH_SHAPES
table. -/
structure MouthShape5 where
  openness : ℚ
  width : ℚ
  roundness : ℚ
  upperLip : ℚ
  lowerLip : ℚ
  deriving DecidableEq

/-- The MOUTH_SHAPES table of VideoStyleAvatar.tsx (lines 18 to 34). -/
def MOUTH_SHAPES : List (String × MouthShape5) :=
  [ ("sil", ⟨0, 1, 0, 0, 0⟩),
    ("PP", ⟨0, 0.8, 0.2, 0.1, 0.1⟩),
    ("FF", ⟨0.15, 1.1, 0, -0.1, 0.2⟩),
    ("TH", ⟨0.2, 1, 0, 0, 0.15⟩),
    ("DD", ⟨0.25, 1, 0, 0, 0.1⟩),
    ("kk", ⟨0.2, 0.95, 0.1, 0, 0.1⟩),
    ("CH", ⟨0.15, 0.75, 0.4, 0.1, 0.15⟩),
    ("SS", ⟨0.1, 1.2, 0, 0, 0⟩),
    ("nn", ⟨0.15, 1, 0, 0, 0.05⟩),
    ("RR", ⟨0.3, 0.85, 0.3, 0, 0.1⟩),
    ("aa", ⟨0.85, 1.2, 0, -0.1, 0.5⟩),
    ("E", ⟨0.45, 1.3, 0, -0.05, 0.25⟩),
    ("I", ⟨0.25, 1.4, 0, 0, 0.1⟩),
    ("O", ⟨0.6, 0.7, 0.7, 0.15, 0.3⟩),
    ("U", ⟨0.4, 0.6, 0.85, 0.2, 0.25⟩) ]

/-- The sil entry of MOUTH_SHAPES. -/
def silShape5 : MouthShape5 := ⟨0, 1, 0, 0, 0⟩

/-- JavaScript object spread applied to an optional table entry: the
spread of a present entry copies its five named fields; the spread of
undefined produces the empty object, here the empty field list. -/
def spreadShape5 : Option MouthShape5 → List (String × ℚ)
  | some s =>
      [ ("openness", s.openness), ("width", s.width),
        ("roundness", s.roundness), ("upperLip", s.upperLip),
        ("lowerLip", s.lowerLip) ]
  | none => []

/-- JavaScript logical-or evaluated on an object operand: every object
value, the empty object included, is truthy, so the expression yields
its left operand and the right operand is dead code. -/
def jsObjOr (a _b : List (String × ℚ)) : List (String × ℚ) := a

/-- VideoStyleAvatar.tsx line 72: the target shape is the spread of the
table entry, or-ed with a spread of the sil entry.  Because the spread
happens before the logical-or, a missing key yields the empty object and
the sil fallback never applies. -/
def videoStyleTargetShape (activeViseme : String) : List (String × ℚ) :=
  jsObjOr (spreadShape5 (MOUTH_SHAPES.lookup activeViseme))
    (spreadShape5 (some silShape5))

/-- The VISEME_TO_BLENDSHAPE table of Face3DAvatar.tsx
(lines 25 to 175): numeric viseme class to named blendshape weights. -/
def VISEME_TO_BLENDSHAPE : List (Int × List (String × ℚ)) :=
  [ (0, []),
    (1, [("jawOpen", 0.3), ("mouthOpen", 0.4),
         ("mouthLowerDownLeft", 0.15), ("mouthLowerDownRight", 0.15)]),
    (2, [("jawOpen", 0.35), ("mouthOpen", 0.5)]),
    (3, [("jawOpen", 0.25), ("mouthFunnel", 0.3), ("mouthPucker", 0.2)]),
    (4, [("jawOpen", 0.2), ("mouthSmileLeft", 0.3), ("mouthSmileRight", 0.3)]),
    (5, [("jawOpen", 0.15), ("mouthFunnel", 0.25), ("mouthPucker", 0.15)]),
    (6, [("jawOpen", 0.1), ("mouthSmileLeft", 0.4), ("mouthSmileRight", 0.4)]),
    (7, [("jawOpen", 0.1), ("mouthFunnel", 0.35), ("mouthPucker", 0.35)]),
    (8, [("jawOpen", 0.2), ("mouthFunnel", 0.3), ("mouthPucker", 0.25)]),
    (9, [("jawOpen", 0.35), ("mouthOpen", 0.4), ("mouthFunnel", 0.15)]),
    (10, [("jawOpen", 0.25), ("mouthFunnel", 0.2),
          ("mouthSmileLeft", 0.2), ("mouthSmileRight", 0.2)]),
    (11, [("jawOpen", 0.3), ("mouthOpen", 0.35),
          ("mouthSmileLeft", 0.15), ("mouthSmileRight", 0.15)]),
    (12, [("jawOpen", 0.15), ("mouthOpen", 0.2)]),
    (13, [("jawOpen", 0.15), ("mouthPucker", 0.25), ("mouthFunnel", 0.2)]),
    (14, [("jawOpen", 0.1), ("tongueOut", 0.15), ("mouthOpen", 0.15)]),
    (15, [("mouthSmileLeft", 0.25), ("mouthSmileRight", 0.25), ("jawOpen", 0.05)]),
    (16, [("mouthFunnel", 0.3), ("mouthPucker", 0.2), ("jawOpen", 0.1)]),
    (17, [("tongueOut", 0.25), ("jawOpen", 0.1), ("mouthOpen", 0.15)]),
    (18, [("mouthLowerDownLeft", 0.3), ("mouthLowerDownRight", 0.3),
          ("mouthRollLower", 0.2)]),
    (19, [("jawOpen", 0.15), ("mouthClose", 0.15), ("tongueOut", 0.1)]),
    (20, [("jawOpen", 0.2), ("mouthOpen", 0.2)]),
    (21, [("mouthClose", 0.5), ("mouthPucker", 0.3),
          ("mouthPressLeft", 0.2), ("mouthPressRight", 0.2)]) ]

/-- Face3DAvatar.tsx line 316: the table access or-ed with the empty
array.  An array, even empty, is truthy, and a missing key reads as
undefined, so the expression is exactly lookup-with-empty-default. -/
def blendShapesFor (code : Int) : List (String × ℚ) :=
  match VISEME_TO_BLENDSHAPE.lookup code with
  | some shapes => shapes
  | none => []

/-- The linear interpolation helper defined identically in
HumanAvatar.tsx line 73, VideoStyleAvatar.tsx line 76,
RealisticAvatar.tsx line 206 and by THREE.MathUtils.lerp, over the
reals. -/
def lerp (a b t : ℝ) : ℝ := a + (b - a) * t

/-- The same interpolation helper over the rationals, used where the
engine state is kept exact. -/
def lerpQ (a b t : ℚ) : ℚ := a + (b - a) * t

/-- The frame-time scaled blend factor of Face3DAvatar.tsx line 333:
1 - exp(-rate * dt). -/
noncomputable def expFactor (rate dt : ℝ) : ℝ := 1 - Real.exp (-(rate * dt))

/-- The smoothing constant of Face3DAvatar.tsx line 328. -/
def smoothingRate : ℝ := 8

/-- The interpolation tick in the form the spec states it:
tick(current, target, dt, rate) blends current toward target by the
frame-time scaled factor.  Face3DAvatar.tsx lines 330 to 334 is this
tick with rate fixed to smoothingRate. -/
noncomputable def tick (current target dt rate : ℝ) : ℝ :=
  lerp current target (expFactor rate dt)

/-- The whole-array smoothing pass of Face3DAvatar.tsx lines 329 to 336:
every weight is blended toward its target with the factor
1 - exp(-8 * delta).  Both arrays are allocated with one slot per morph
target, so they are modelled as lists of equal length. -/
noncomputable def face3dSmoothList (current target : List ℝ) (delta : ℝ) : List ℝ :=
  List.zipWith (fun c t => lerp c t (expFactor smoothingRate delta)) current target

/-- Mouth parameter set of HumanAvatar.tsx's VISEME_MOUTH_PARAMS
entries, over the reals to feed the canvas drawing. -/
structure MouthParams3 where
  openness : ℝ
  width : ℝ
  lipRound : ℝ

/-- HumanAvatar.tsx lines 94 to 99: one drawFace call blends the current
parameters toward the target with the fixed factor 0.15.  The function
has no elapsed-time argument because the source reads none. -/
def humanSmoothTick (current target : MouthParams3) : MouthParams3 :=
  ⟨lerp current.openness target.openness 0.15,
   lerp current.width target.width 0.15,
   lerp current.lipRound target.lipRound 0.15⟩

/-- One blink update of VideoStyleAvatar.tsx lines 107 to 112, times in
milliseconds as Date.now supplies them.  When now has reached the
scheduled instant the value is set to 1 and the next blink is scheduled
at now + 2500 + rand * 3000; the fixed decrement of 0.15, clamped at 0,
then runs on every call, the trigger call included. -/
def videoBlinkStep (value nextBlink now rand : ℚ) : ℚ × ℚ :=
  let p := if nextBlink ≤ now then ((1 : ℚ), now + 2500 + rand * 3000)
           else (value, nextBlink)
  (max 0 (p.1 - 0.15), p.2)

/-- One blink update of the ImageBasedAvatar render loop (part_002 lines
497 to 502): the same schedule with the fixed decrement 0.12. -/
def imageBlinkStep (value nextBlink now rand : ℚ) : ℚ × ℚ :=
  let p := if nextBlink ≤ now then ((1 : ℚ), now + 2500 + rand * 3000)
           else (value, nextBlink)
  (max 0 (p.1 - 0.12), p.2)

/-- The micro-motion phase advance of VideoStyleAvatar.tsx line 102: a
fixed step per call. -/
def microPhaseStep (phase : ℚ) : ℚ := phase + 0.02

/-- The micro-motion offset of VideoStyleAvatar.tsx lines 103 to 104, a
pure function of the phase. -/
noncomputable def microOffset (phase : ℝ) : ℝ × ℝ :=
  (Real.sin phase * 0.5, Real.cos (phase * 0.7) * 0.3)

/-- Per-field interpolation of a VideoStyleAvatar mouth shape
(VideoStyleAvatar.tsx lines 93 to 99). -/
def lerpShape5 (c t : MouthShape5) (f : ℚ) : MouthShape5 :=
  ⟨lerpQ c.openness t.openness f, lerpQ c.width t.width f,
   lerpQ c.roundness t.roundness f, lerpQ c.upperLip t.upperLip f,
   lerpQ c.lowerLip t.lowerLip f⟩

/-- The animation state one VideoStyleAvatar instance owns: the current
mouth shape (none models the NaN-poisoned state that arises once a lerp
has run against an undefined target field), the micro-motion phase and
the blink pair. -/
structure EngineState where
  shape : Option MouthShape5
  microPhase : ℚ
  blinkValue : ℚ
  nextBlink : ℚ

/-- The shape part of one engine tick: look the resolved code up in
MOUTH_SHAPES and blend each field toward it with the fixed factor 0.15.
When the code is missing, the target fields are undefined
(videoStyleTargetShape yields the empty object) and every blended field
becomes NaN; NaN also propagates from an already poisoned state.  Both
NaN outcomes are modelled as none. -/
def engineShapeStep (cur : Option MouthShape5) (code : String) :
    Option MouthShape5 :=
  match MOUTH_SHAPES.lookup code, cur with
  | some target, some c => some (lerpShape5 c target 0.15)
  | _, _ => none

/-- One tick of the VideoStyleAvatar engine in the order the render loop
runs it: resolve the timeline, blend the mouth shape, advance the
micro-motion phase, update the blink.  The wall clock reading and the
random sample feed only the blink update. -/
def engineStep (visemes : List VisemeEvent) (s : EngineState)
    (currentTime : ℚ) (isPlaying : Bool) (now rand : ℚ) : EngineState :=
  let code := resolve visemes currentTime isPlaying
  let b := videoBlinkStep s.blinkValue s.nextBlink now rand
  ⟨engineShapeStep s.shape code, microPhaseStep s.microPhase, b.1, b.2⟩

/-- The engine trajectory: state after n ticks, the n-th tick reading
the n-th clock input, wall clock value and random sample. -/
def engineTraj (visemes : List VisemeEvent) (ticks : ℕ → ℚ × Bool)
    (nows rands : ℕ → ℚ) (s0 : EngineState) : ℕ → EngineState
  | 0 => s0
  | n + 1 =>
      engineStep visemes (engineTraj visemes ticks nows rands s0 n)
        (ticks n).1 (ticks n).2 (nows n) (rands n)

/-- Character-wise lowercasing of a JavaScript string, as
toLowerCase acts on the names involved here. -/
def jsToLower (s : String) : List Char := s.data.map Char.toLower

/-- Whether the first character list is a prefix of the second,
computably. -/
def startsWithChars : List Char → List Char → Bool
  | [], _ => true
  | _ :: _, [] => false
  | p :: ps, t :: ts => p == t && startsWithChars ps ts

/-- Whether the first character list occurs contiguously inside the
second: the semantics of String.prototype.includes. -/
def containsChars (p : List Char) : List Char → Bool
  | [] => startsWithChars p []
  | t :: ts => startsWithChars p (t :: ts) || containsChars p ts

/-- The per-entry test of the fallback loop in findMorphTargetIndex
(Face3DAvatar.tsx lines 291 to 299): lowercase equality, or a substring
containment in either direction. -/
def nameMatches (lowerTarget : List Char) (name : String) : Bool :=
  jsToLower name == lowerTarget ||
    (containsChars lowerTarget (jsToLower name) ||
      containsChars (jsToLower name) lowerTarget)

/-- The fallback scan of findMorphTargetIndex over the dictionary
entries, in order: return the index of the first entry whose lowercased
name equals the lowercased target, or failing that contains it or is
contained in it; return -1 when no entry matches. -/
def findLoop : List (String × ℕ) → List Char → Int
  | [], _ => -1
  | (name, index) :: rest, lowerTarget =>
      if jsToLower name == lowerTarget then (index : Int)
      else if containsChars lowerTarget (jsToLower name) ||
          containsChars (jsToLower name) lowerTarget then (index : Int)
      else findLoop rest lowerTarget

/-- Face3DAvatar.tsx findMorphTargetIndex (lines 280 to 302): exact
dictionary hit first, then the lowercase and substring fallback scan,
then the sentinel -1. -/
def findMorphTargetIndex (dict : List (String × ℕ)) (targetName : String) :
    Int :=
  match dict.lookup targetName with
  | some index => (index : Int)
  | none => findLoop dict (jsToLower targetName)

/-- A bounds-checked array store: none models an out-of-range write,
the fault the per-frame update must never reach. -/
def setChecked (w : List ℚ) (i : ℕ) (x : ℚ) : Option (List ℚ) :=
  if i < w.length then some (w.set i x) else none

/-- The write loop of the per-frame update (Face3DAvatar.tsx lines 319
to 324): for each blendshape of the active viseme, resolve the morph
target name to an index and store the weight only when the index is
nonnegative and below the array length. -/
def applyBlendShapes (dict : List (String × ℕ)) (w : List ℚ) :
    List (String × ℚ) → Option (List ℚ)
  | [] => some w
  | (name, weight) :: rest =>
      let idx := findMorphTargetIndex dict name
      if 0 ≤ idx ∧ idx < (w.length : Int) then
        match setChecked w idx.toNat weight with
        | some w' => applyBlendShapes dict w' rest
        | none => none
      else applyBlendShapes dict w rest

/-- The target-weight computation of one Face3DAvatar frame
(Face3DAvatar.tsx lines 310 to 325): the array is first filled with
zeros; only while playing are the active viseme's blendshape weights
written through the guarded loop. -/
def computeTargetWeights (dict : List (String × ℕ)) (n : ℕ)
    (visemes : List VisemeEvent3D) (t : ℚ) (isPlaying : Bool) :
    Option (List ℚ) :=
  let base := List.replicate n (0 : ℚ)
  if isPlaying then
    applyBlendShapes dict base (blendShapesFor (getCurrentViseme visemes t))
  else some base

theorem resolveLoop_eq_firstCovering (tl : List VisemeEvent) (t : ℚ) :
    resolveLoop tl t = firstCoveringViseme tl t := by
  induction tl with
  | nil => rfl
  | cons v rest ih =>
      by_cases h : v.time ≤ t ∧ t < v.time + v.duration
      · simp [resolveLoop, firstCoveringViseme, List.find?_cons, h]
      · simpa [resolveLoop, firstCoveringViseme, List.find?_cons, h] using ih

theorem lastAtOrBefore_eq_find (l : List VisemeEvent3D) (t : ℚ) :
    lastAtOrBefore l t =
      (match l.find? (fun e => decide (e.time ≤ t)) with
        | some e => e.viseme
        | none => 0) := by
  induction l with
  | nil => rfl
  | cons v rest ih =>
      by_cases h : v.time ≤ t
      · simp [lastAtOrBefore, List.find?_cons, h]
      · simpa [lastAtOrBefore, List.find?_cons, h] using ih

/-- C1, amended.  The resolvers diverge: the 2D renderers' resolver,
while playing, returns the viseme of the first event in sequence order
whose half-open interval contains the current time and SILENCE when no
interval contains it (visemes expire with their duration); the 3D
renderer's getCurrentViseme instead returns the viseme of the last
event whose start time is at or before the current time, holding it
indefinitely, and returns SILENCE only before the first event or on an
empty timeline. -/
theorem c1_resolver_semantics :
    (∀ (tl : List VisemeEvent) (t : ℚ),
        resolve tl t true = firstCoveringViseme tl t) ∧
    (∀ (tl : List VisemeEvent3D) (t : ℚ),
        getCurrentViseme tl t = holdLastViseme tl t) := by
  constructor
  · intro tl t
    cases tl with
    | nil => rfl
    | cons v rest =>
        rw [resolve, if_neg (by simp)]
        exact resolveLoop_eq_firstCovering _ t
  · intro tl t
    cases tl with
    | nil => rfl
    | cons v rest =>
        rw [getCurrentViseme, if_neg (by simp), holdLastViseme]
        exact lastAtOrBefore_eq_find _ t

/-- C1, counterexample to the claim as stated: on the timeline whose
only event starts at time 0 with viseme 5 and duration 0.3, the event's
half-open interval has expired by time 0.6 (its end, 0 + 0.3, is at or
before 0.6), so the claim mandates SILENCE there; the 3D resolver
nevertheless returns 5. -/
theorem c1_counterexample :
    getCurrentViseme [⟨0, 5, 0.3⟩] 0.6 = 5 ∧
    (0 : ℚ) + 0.3 ≤ 0.6 ∧
    (5 : Int) ≠ 0 := by
  refine ⟨?_, by norm_num, by norm_num⟩
  norm_num [getCurrentViseme, lastAtOrBefore]

/-- C4: if playback is off or the timeline is empty the 2D resolver
returns SILENCE unconditionally, and the 3D per-frame target weights
are the all-zero array both when playback is off and when the timeline
is empty. -/
theorem c4_silence_when_idle (tl : List VisemeEvent) (t : ℚ)
    (isPlaying : Bool) (h : isPlaying = false ∨ tl = []) :
    resolve tl t isPlaying = "sil" ∧
    (∀ (dict : List (String × ℕ)) (n : ℕ) (tl3 : List VisemeEvent3D)
        (t3 : ℚ), computeTargetWeights dict n tl3 t3 false =
          some (List.replicate n 0)) ∧
    (∀ (dict : List (String × ℕ)) (n : ℕ) (t3 : ℚ),
        computeTargetWeights dict n [] t3 true =
          some (List.replicate n 0)) := by
  refine ⟨?_, ?_, ?_⟩
  · rw [resolve, if_pos h]
  · intro dict n tl3 t3
    rfl
  · intro dict n t3
    rfl

/-- C4, witness at a concrete idle input. -/
theorem c4_silence_witness :
    resolve [⟨0, "aa", 1⟩] 0.5 false = "sil" ∧
    (∀ (dict : List (String × ℕ)) (n : ℕ) (tl3 : List VisemeEvent3D)
        (t3 : ℚ), computeTargetWeights dict n tl3 t3 false =
          some (List.replicate n 0)) ∧
    (∀ (dict : List (String × ℕ)) (n : ℕ) (t3 : ℚ),
        computeTargetWeights dict n [] t3 true =
          some (List.replicate n 0)) :=
  c4_silence_when_idle [⟨0, "aa", 1⟩] 0.5 false (Or.inl rfl)

/-- C2: the dt-scaled factor 1 - exp(-rate * dt) of the 3D renderer
makes the blend depend only on elapsed time (two consecutive ticks of
durations d1 and d2 land exactly where one tick of duration d1 + d2
lands), while the 2D renderers' per-call blend reads no elapsed time at
all: starting from 0 toward target 1, one drawFace call yields 0.15 and
two calls yield 0.2775, so covering the same wall-clock span in one or
two frames produces different parameters. -/
theorem c2_frame_time_scaling :
    (∀ c target d1 d2 : ℝ,
        tick (tick c target d1 smoothingRate) target d2 smoothingRate =
          tick c target (d1 + d2) smoothingRate) ∧
    (humanSmoothTick ⟨0, 0, 0⟩ ⟨1, 1, 1⟩).openness = 0.15 ∧
    (humanSmoothTick (humanSmoothTick ⟨0, 0, 0⟩ ⟨1, 1, 1⟩) ⟨1, 1, 1⟩).openness
      = 0.2775 ∧
    (0.2775 : ℝ) ≠ 0.15 := by
  refine ⟨?_, by norm_num [humanSmoothTick, lerp],
    by norm_num [humanSmoothTick, lerp], by norm_num⟩
  intro c target d1 d2
  have key : Real.exp (-(smoothingRate * d1)) * Real.exp (-(smoothingRate * d2))
      = Real.exp (-(smoothingRate * (d1 + d2))) := by
    rw [← Real.exp_add]
    congr 1
    ring
  simp only [tick, lerp, expFactor]
  linear_combination (c - target) * key

/-- C3: the VideoStyleAvatar target update spreads the table entry
before applying the logical-or, so for a code missing from
MOUTH_SHAPES the target is the empty field set, not the SILENCE entry;
Avatar.tsx applies the or to the raw lookup and its fallback works. -/
theorem c3_unknown_code_fallback :
    MOUTH_SHAPES.lookup "xx" = none ∧
    videoStyleTargetShape "xx" = [] ∧
    spreadShape5 (some silShape5) =
      [("openness", 0), ("width", 1), ("roundness", 0),
       ("upperLip", 0), ("lowerLip", 0)] ∧
    ([] : List (String × ℚ)) ≠
      [("openness", 0), ("width", 1), ("roundness", 0),
       ("upperLip", 0), ("lowerLip", 0)] ∧
    VISEME_SHAPES.lookup "xx" = none ∧
    avatarMouthShape "xx" = silShapeA := by
  refine ⟨rfl, rfl, rfl, by simp, rfl, rfl⟩

theorem lerp_iterate (target f : ℝ) (c : ℝ) :
    ∀ n, (fun x => lerp x target f)^[n] c - target = (1 - f) ^ n * (c - target) := by
  intro n
  induction n with
  | zero => simp
  | succ n ih =>
      rw [Function.iterate_succ_apply']
      set y := (fun x => lerp x target f)^[n] c with hy
      simp only [lerp]
      rw [pow_succ]
      linear_combination (1 - f) * ih

theorem tick_sub_target (c target dt rate : ℝ) :
    tick c target dt rate - target =
      Real.exp (-(rate * dt)) * (c - target) := by
  simp only [tick, lerp, expFactor]
  ring

/-- C5: with target distinct from the current value and positive dt and
rate, every application of the interpolation tick strictly shrinks the
distance to the target, the iterates never cross the target (the signed
offset keeps the sign of the initial offset at every step), and the
iterated sequence converges to the target. -/
theorem c5_convergence (c target dt rate : ℝ) (hne : c ≠ target)
    (hdt : 0 < dt) (hrate : 0 < rate) :
    (∀ n, |(fun x => tick x target dt rate)^[n + 1] c - target| <
        |(fun x => tick x target dt rate)^[n] c - target|) ∧
    (∀ n, 0 < ((fun x => tick x target dt rate)^[n] c - target) * (c - target)) ∧
    Filter.Tendsto (fun n => (fun x => tick x target dt rate)^[n] c)
      Filter.atTop (nhds target) := by
  set r : ℝ := Real.exp (-(rate * dt)) with hr
  have hr0 : 0 < r := Real.exp_pos _
  have hr1 : r < 1 := by
    rw [hr, Real.exp_lt_one_iff]
    nlinarith
  have hd : c - target ≠ 0 := sub_ne_zero.mpr hne
  have hiter : ∀ n, (fun x => tick x target dt rate)^[n] c - target =
      r ^ n * (c - target) := by
    intro n
    have h1 := lerp_iterate target (expFactor rate dt) c n
    have h2 : (1 : ℝ) - expFactor rate dt = r := by
      simp [expFactor, hr]
    simp only [tick] at h1 ⊢
    rw [h1, h2]
  refine ⟨?_, ?_, ?_⟩
  · intro n
    rw [hiter, hiter, abs_mul, abs_mul, abs_pow, abs_pow,
      abs_of_pos hr0]
    have hpow : r ^ (n + 1) < r ^ n :=
      pow_lt_pow_right_of_lt_one₀ hr0 hr1 (Nat.lt_succ_self n)
    exact mul_lt_mul_of_pos_right hpow (abs_pos.mpr hd)
  · intro n
    rw [hiter, mul_assoc]
    exact mul_pos (pow_pos hr0 n) (mul_self_pos.mpr hd)
  · have hbase : Filter.Tendsto (fun n : ℕ => r ^ n) Filter.atTop (nhds 0) :=
      tendsto_pow_atTop_nhds_zero_of_lt_one (le_of_lt hr0) hr1
    have hmul := hbase.mul_const (c - target)
    have hadd := hmul.const_add target
    rw [zero_mul, add_zero] at hadd
    refine Filter.Tendsto.congr (fun n => ?_) hadd
    have := hiter n
    linarith [this]

/-- C5, witness at current 0, target 1, dt 1, rate 1: after one tick the
distance to 1 has shrunk, the offset after two ticks still has the sign
of the initial offset, and the iterates tend to 1. -/
theorem c5_convergence_witness :
    |(fun x => tick x 1 1 1)^[1] 0 - 1| < |(fun x => tick x 1 1 1)^[0] 0 - 1| ∧
    0 < ((fun x => tick x 1 1 1)^[2] 0 - 1) * ((0 : ℝ) - 1) ∧
    Filter.Tendsto (fun n => (fun x => tick x 1 1 1)^[n] 0)
      Filter.atTop (nhds 1) :=
  ⟨(c5_convergence 0 1 1 1 (by norm_num) one_pos one_pos).1 0,
   (c5_convergence 0 1 1 1 (by norm_num) one_pos one_pos).2.1 2,
   (c5_convergence 0 1 1 1 (by norm_num) one_pos one_pos).2.2⟩

theorem face3dSmoothList_self (ws : List ℝ) (d : ℝ) :
    face3dSmoothList ws ws d = ws := by
  induction ws with
  | nil => rfl
  | cons a l ih =>
      simp only [face3dSmoothList, List.zipWith_cons_cons, lerp] at ih ⊢
      rw [ih]
      congr 1
      ring

/-- C6: blending a value toward an identical target is the identity,
for the dt-scaled tick at any dt and rate, for HumanAvatar's fixed
per-call parameter blend, and for the 3D renderer's whole-array
smoothing pass. -/
theorem c6_tick_idempotent (c dt rate : ℝ) (p : MouthParams3)
    (ws : List ℝ) (d : ℝ) (_hdt : 0 ≤ dt) :
    tick c c dt rate = c ∧
    humanSmoothTick p p = p ∧
    face3dSmoothList ws ws d = ws := by
  refine ⟨?_, ?_, face3dSmoothList_self ws d⟩
  · simp only [tick, lerp]
    ring
  · cases p with
    | mk o w l =>
        simp only [humanSmoothTick, lerp, MouthParams3.mk.injEq]
        refine ⟨by ring, by ring, by ring⟩

/-- C6, witness at concrete inputs. -/
theorem c6_tick_idempotent_witness :
    tick 2 2 1 8 = 2 ∧
    humanSmoothTick ⟨0.5, 0.4, 0.3⟩ ⟨0.5, 0.4, 0.3⟩ = ⟨0.5, 0.4, 0.3⟩ ∧
    face3dSmoothList [0, 1] [0, 1] 0.1 = [0, 1] :=
  c6_tick_idempotent 2 1 8 ⟨0.5, 0.4, 0.3⟩ [0, 1] 0.1 (by norm_num)

/-- C7, counterexample to the claim as stated: on a tick that triggers a
blink (now has reached the scheduled instant) the blink value does not
end the tick at 1, because the fixed decrement also runs on the trigger
tick; it ends at 0.85. -/
theorem c7_counterexample :
    (videoBlinkStep 0 0 0 0).1 = 0.85 ∧ ((0.85 : ℚ) ≠ 1) := by
  constructor
  · norm_num [videoBlinkStep]
  · norm_num

/-- C7, amended.  On a trigger tick the value is set to 1 and the next
blink is scheduled at now plus 2500 plus rand times 3000 milliseconds, a
uniform gap of 2.5 to 5.5 seconds for rand in the unit interval; the
fixed per-tick decrement (0.15, or 0.12 in the ImageBasedAvatar),
clamped at 0 and not scaled by elapsed time, then applies on every
tick, the trigger tick included, so a trigger tick ends with the value
at 0.85 (or 0.88) rather than 1. -/
theorem c7_blink_amended (v nb now rand : ℚ) (h0 : 0 ≤ rand)
    (h1 : rand ≤ 1) :
    videoBlinkStep v nb now rand =
      ((if nb ≤ now then 0.85 else max 0 (v - 0.15)),
       (if nb ≤ now then now + 2500 + rand * 3000 else nb)) ∧
    imageBlinkStep v nb now rand =
      ((if nb ≤ now then 0.88 else max 0 (v - 0.12)),
       (if nb ≤ now then now + 2500 + rand * 3000 else nb)) ∧
    2500 ≤ 2500 + rand * 3000 ∧ 2500 + rand * 3000 ≤ 5500 := by
  refine ⟨?_, ?_, by nlinarith, by nlinarith⟩
  · unfold videoBlinkStep
    by_cases h : nb ≤ now
    · simp only [if_pos h]
      norm_num
    · simp only [if_neg h]
  · unfold imageBlinkStep
    by_cases h : nb ≤ now
    · simp only [if_pos h]
      norm_num
    · simp only [if_neg h]

/-- C7, witness for the amended statement at a concrete trigger tick. -/
theorem c7_blink_amended_witness :
    videoBlinkStep 0.5 10 20 0.5 =
      ((if (10 : ℚ) ≤ 20 then 0.85 else max 0 (0.5 - 0.15)),
       (if (10 : ℚ) ≤ 20 then 20 + 2500 + 0.5 * 3000 else 10)) ∧
    imageBlinkStep 0.5 10 20 0.5 =
      ((if (10 : ℚ) ≤ 20 then 0.88 else max 0 (0.5 - 0.12)),
       (if (10 : ℚ) ≤ 20 then 20 + 2500 + 0.5 * 3000 else 10)) ∧
    2500 ≤ 2500 + (0.5 : ℚ) * 3000 ∧ 2500 + (0.5 : ℚ) * 3000 ≤ 5500 :=
  c7_blink_amended 0.5 10 20 0.5 (by norm_num) (by norm_num)

/-- C8: from a blink value in the unit interval, the value after an
idle-motion tick stays in the unit interval, whether or not the tick
triggers a blink, in both blink implementations. -/
theorem c8_blink_in_unit_interval (v nb now rand : ℚ) (_h0 : 0 ≤ v)
    (h1 : v ≤ 1) :
    (0 ≤ (videoBlinkStep v nb now rand).1 ∧
      (videoBlinkStep v nb now rand).1 ≤ 1) ∧
    (0 ≤ (imageBlinkStep v nb now rand).1 ∧
      (imageBlinkStep v nb now rand).1 ≤ 1) := by
  unfold videoBlinkStep imageBlinkStep
  by_cases h : nb ≤ now <;>
    simp only [if_pos, if_neg, h, ite_true, ite_false] <;>
    refine ⟨⟨le_max_left _ _, max_le (by norm_num) (by linarith)⟩,
      ⟨le_max_left _ _, max_le (by norm_num) (by linarith)⟩⟩

/-- C8, witness at a concrete in-range state. -/
theorem c8_blink_in_unit_interval_witness :
    (0 ≤ (videoBlinkStep 0.5 3000 0 0.25).1 ∧
      (videoBlinkStep 0.5 3000 0 0.25).1 ≤ 1) ∧
    (0 ≤ (imageBlinkStep 0.5 3000 0 0.25).1 ∧
      (imageBlinkStep 0.5 3000 0 0.25).1 ≤ 1) :=
  c8_blink_in_unit_interval 0.5 3000 0 0.25 (by norm_num) (by norm_num)

/-- C9: two engine runs over the same timeline, the same sequence of
clock inputs and initial states agreeing on the mouth shape and the
micro-motion phase produce identical mouth-shape and micro-motion-phase
trajectories at every tick, whatever wall-clock readings and random
samples the blink update of each run consumes: the resolver, the
mapping lookup, the interpolation step and the phase advance read no
randomness. -/
theorem c9_determinism_except_blink (visemes : List VisemeEvent)
    (ticks : ℕ → ℚ × Bool) (nows1 rands1 nows2 rands2 : ℕ → ℚ)
    (s1 s2 : EngineState) (hshape : s1.shape = s2.shape)
    (hphase : s1.microPhase = s2.microPhase) :
    ∀ n, (engineTraj visemes ticks nows1 rands1 s1 n).shape =
          (engineTraj visemes ticks nows2 rands2 s2 n).shape ∧
        (engineTraj visemes ticks nows1 rands1 s1 n).microPhase =
          (engineTraj visemes ticks nows2 rands2 s2 n).microPhase := by
  intro n
  induction n with
  | zero => exact ⟨hshape, hphase⟩
  | succ n ih =>
      refine ⟨?_, ?_⟩
      · show engineShapeStep (engineTraj visemes ticks nows1 rands1 s1 n).shape
            (resolve visemes (ticks n).1 (ticks n).2) = _
        rw [ih.1]
        rfl
      · show microPhaseStep
            (engineTraj visemes ticks nows1 rands1 s1 n).microPhase = _
        rw [ih.2]
        rfl

/-- C9, witness: two concrete runs differing only in their wall-clock
and random streams agree on shape and phase after three ticks. -/
theorem c9_determinism_witness :
    (engineTraj [⟨0, "aa", 1⟩] (fun _ => (0.5, true)) (fun _ => 0)
        (fun _ => 0) ⟨some silShape5, 0, 0, 2000⟩ 3).shape =
      (engineTraj [⟨0, "aa", 1⟩] (fun _ => (0.5, true)) (fun n => (n : ℚ))
        (fun _ => 0.5) ⟨some silShape5, 0, 0, 2000⟩ 3).shape ∧
    (engineTraj [⟨0, "aa", 1⟩] (fun _ => (0.5, true)) (fun _ => 0)
        (fun _ => 0) ⟨some silShape5, 0, 0, 2000⟩ 3).microPhase =
      (engineTraj [⟨0, "aa", 1⟩] (fun _ => (0.5, true)) (fun n => (n : ℚ))
        (fun _ => 0.5) ⟨some silShape5, 0, 0, 2000⟩ 3).microPhase :=
  c9_determinism_except_blink [⟨0, "aa", 1⟩] (fun _ => (0.5, true))
    (fun _ => 0) (fun _ => 0) (fun n => (n : ℚ)) (fun _ => 0.5)
    ⟨some silShape5, 0, 0, 2000⟩ ⟨some silShape5, 0, 0, 2000⟩ rfl rfl 3

theorem findLoop_eq_neg_one (dict : List (String × ℕ)) (lower : List Char)
    (hmatch : ∀ p ∈ dict, nameMatches lower p.1 = false) :
    findLoop dict lower = -1 := by
  induction dict with
  | nil => rfl
  | cons p rest ih =>
      obtain ⟨name, index⟩ := p
      have hm := hmatch (name, index) (List.mem_cons_self _ _)
      simp only [nameMatches, Bool.or_eq_false_iff] at hm
      simp only [findLoop, hm.1, hm.2, Bool.false_eq_true, if_false]
      exact ih fun q hq => hmatch q (List.mem_cons_of_mem _ hq)

/-- C10: the morph-target adapter is safe.  When a blendshape name has
no exact dictionary hit and matches no entry by lowercase equality or
substring containment, findMorphTargetIndex returns the sentinel -1;
the sentinel fails the write guard, so that blendshape writes nothing;
and for every dictionary, weight array and list of blendshape names the
guarded write loop completes without an out-of-range store (it never
returns the fault value) and preserves the array length. -/
theorem c10_no_out_of_range_write :
    (∀ (dict : List (String × ℕ)) (name : String),
        dict.lookup name = none →
        (∀ p ∈ dict, nameMatches (jsToLower name) p.1 = false) →
        findMorphTargetIndex dict name = -1) ∧
    (∀ (dict : List (String × ℕ)) (w : List ℚ) (name : String) (wt : ℚ),
        findMorphTargetIndex dict name = -1 →
        applyBlendShapes dict w [(name, wt)] = some w) ∧
    (∀ (dict : List (String × ℕ)) (w : List ℚ)
        (shapes : List (String × ℚ)), ∃ w',
        applyBlendShapes dict w shapes = some w' ∧ w'.length = w.length) := by
  refine ⟨?_, ?_, ?_⟩
  · intro dict name hnone hmatch
    rw [findMorphTargetIndex, hnone]
    exact findLoop_eq_neg_one dict (jsToLower name) hmatch
  · intro dict w name wt h
    simp [applyBlendShapes, h]
  · intro dict w shapes
    induction shapes generalizing w with
    | nil => exact ⟨w, rfl, rfl⟩
    | cons head rest ih =>
        obtain ⟨name, wt⟩ := head
        by_cases hg : 0 ≤ findMorphTargetIndex dict name ∧
            findMorphTargetIndex dict name < (w.length : Int)
        · have hlt : (findMorphTargetIndex dict name).toNat < w.length := by
            omega
          obtain ⟨w', hw', hlen⟩ :=
            ih (w.set (findMorphTargetIndex dict name).toNat wt)
          refine ⟨w', ?_, ?_⟩
          · simp only [applyBlendShapes, if_pos hg, setChecked, if_pos hlt]
            exact hw'
          · rw [hlen, List.length_set]
        · obtain ⟨w', hw', hlen⟩ := ih w
          refine ⟨w', ?_, hlen⟩
          simp only [applyBlendShapes, if_neg hg]
          exact hw'

/-- C10, witness: a concrete dictionary and weight array on which the
unmatched name yields the sentinel, the sentinel write is skipped, and
a mixed list of matched and unmatched names is applied without fault
and preserves the length. -/
theorem c10_no_out_of_range_write_witness :
    findMorphTargetIndex [("jawOpen", 0)] "zz" = -1 ∧
    applyBlendShapes [("jawOpen", 0)] [0, 0] [("zz", 0.5)] = some [0, 0] ∧
    (∃ w', applyBlendShapes [("jawOpen", 0)] [0, 0]
        [("jawOpen", 0.3), ("zz", 1)] = some w' ∧
      w'.length = ([(0 : ℚ), 0]).length) :=
  ⟨c10_no_out_of_range_write.1 [("jawOpen", 0)] "zz" rfl (by decide),
   c10_no_out_of_range_write.2.1 [("jawOpen", 0)] [0, 0] "zz" 0.5
     (c10_no_out_of_range_write.1 [("jawOpen", 0)] "zz" rfl (by decide)),
   c10_no_out_of_range_write.2.2 [("jawOpen", 0)] [0, 0]
     [("jawOpen", 0.3), ("zz", 1)]⟩

end VisemeAnim
